import Mathlib

/-!
Verification of the GPA slot-filling state machine in
`NUM_GPA/actions/actions.py`.

Numeric values (Python floats) are modelled as exact rationals (`ℚ`);
slot values that may be unset (`None`) are modelled as `Option`.
A Python function that can fall off the end of its body (returning
`None` where an object is expected, which makes the caller crash with
an attribute error) is modelled as returning `Option`, with `none`
for the fall-through.
-/

namespace RasaGpa

/-- The `GradeMap` dataclass: a letter grade and its grade-point value. -/
structure GradeMap where
  letter : String
  gpa : ℚ
deriving Repr, DecidableEq

/-- Embedding of `score_to_grade` (actions.py lines 19-42).  The chain of
early-`return` `if`s is an else-if chain; a score matching no branch makes
the Python function return `None`, modelled as `none`. -/
def score_to_grade (score : ℚ) : Option GradeMap :=
  if 95 ≤ score then some ⟨"A+", 4⟩
  else if 90 ≤ score ∧ score ≤ 94 then some ⟨"A", 37/10⟩
  else if 87 ≤ score ∧ score ≤ 89 then some ⟨"B+", 33/10⟩
  else if 83 ≤ score ∧ score ≤ 86 then some ⟨"B", 3⟩
  else if 80 ≤ score ∧ score ≤ 82 then some ⟨"B", 27/10⟩
  else if 77 ≤ score ∧ score ≤ 79 then some ⟨"C+", 23/10⟩
  else if 73 ≤ score ∧ score ≤ 76 then some ⟨"C", 2⟩
  else if 70 ≤ score ∧ score ≤ 72 then some ⟨"C", 17/10⟩
  else if 65 ≤ score ∧ score ≤ 69 then some ⟨"D", 13/10⟩
  else if 60 ≤ score ∧ score ≤ 64 then some ⟨"D", 1⟩
  else if 0 ≤ score ∧ score ≤ 59 then some ⟨"F", 0⟩
  else none

/-- One element of the `courses` slot list: the dict
`{"credit": credit, "score": s}` appended in `validate_current_score`. -/
structure Course where
  credit : ℚ
  score : ℚ
deriving Repr, DecidableEq

/-- The slot store of the GPA form, as read and written by the actions.
`none` stands for a Python `None` slot. -/
structure GpaSlots where
  number_of_courses : Option ℤ
  current_course_index : Option ℤ
  current_credit : Option ℚ
  current_score : Option ℚ
  courses : Option (List Course)
deriving Repr, DecidableEq

/-- Python `int(x)` on a number: truncation toward zero. -/
def truncQ (q : ℚ) : ℤ :=
  if 0 ≤ q then ⌊q⌋ else ⌈q⌉

/-- Embedding of `ValidateGpaForm.validate_number_of_courses`
(lines 49-66).  The raw input is modelled as `Option ℚ`: `none` is an
input on which `int(float(slot_value))` raises (the `except` branch);
`some q` is a parsed numeric input, truncated toward zero by `int(...)`.
The returned slot dict is applied to the slot store. -/
def validate_number_of_courses (slot_value : Option ℚ) (st : GpaSlots) : GpaSlots :=
  match slot_value with
  | none => { st with number_of_courses := none }
  | some q =>
    let n := truncQ q
    if ¬(1 ≤ n ∧ n ≤ 50) then { st with number_of_courses := none }
    else { st with number_of_courses := some n,
                   current_course_index := some 1,
                   courses := some [] }

/-- Embedding of `ValidateGpaForm.validate_current_credit` (lines 68-85). -/
def validate_current_credit (slot_value : Option ℚ) (st : GpaSlots) : GpaSlots :=
  match slot_value with
  | none => { st with current_credit := none }
  | some c =>
    if ¬(0 < c ∧ c ≤ 30) then { st with current_credit := none }
    else { st with current_credit := some c }

/-- Embedding of `ValidateGpaForm.validate_current_score` (lines 87-125).
`tracker.get_slot(k) or d` is `Option.getD`; the appended course carries the
pending credit, defaulted to `0` when the `current_credit` slot is `None`.
The final-course branch (line 125) sets only `courses` and `current_score`. -/
def validate_current_score (slot_value : Option ℚ) (st : GpaSlots) : GpaSlots :=
  match slot_value with
  | none => { st with current_score := none }
  | some s =>
    if ¬(0 ≤ s ∧ s ≤ 100) then { st with current_score := none }
    else
      let n : ℤ := st.number_of_courses.getD 0
      let idx : ℤ := st.current_course_index.getD 1
      let credit : ℚ := st.current_credit.getD 0
      let cs : List Course := st.courses.getD []
      let cs2 : List Course := cs ++ [⟨credit, s⟩]
      let next_idx : ℤ := idx + 1
      if next_idx ≤ n then
        { st with courses := some cs2,
                  current_course_index := some next_idx,
                  current_credit := none,
                  current_score := none }
      else
        { st with courses := some cs2, current_score := some s }

/-- One rendered line of the final report: the data interpolated into
`f"{i}. {cr:g}кр - {sc:g}% → {g.letter} ({g.gpa:.1f})"` (line 176). -/
structure ReportLine where
  index : ℕ
  credit : ℚ
  score : ℚ
  letter : String
  point : ℚ
deriving Repr, DecidableEq

/-- The loop `for i, c in enumerate(courses, start=1)` of
`ActionCalculateGpa.run` (lines 168-176), building one line per course.
`score_to_grade` returning `None` makes the Python loop crash on `g.gpa`
(attribute error), modelled as the whole build returning `none`. -/
def buildLines : ℕ → List Course → Option (List ReportLine)
  | _, [] => some []
  | i, c :: rest =>
    match score_to_grade c.score with
    | none => none
    | some g =>
      (buildLines (i + 1) rest).map
        fun ls => ⟨i, c.credit, c.score, g.letter, g.gpa⟩ :: ls

/-- The finalized report: the per-course lines, the accumulated
`total_credits` and `total_points`, and `gpa` (lines 164-185). -/
structure Report where
  lines : List ReportLine
  totalCredits : ℚ
  totalPoints : ℚ
  gpa : ℚ
deriving Repr, DecidableEq

/-- The aggregation part of `ActionCalculateGpa.run` (lines 164-185) as a
function of the collected course list: accumulate credits and
credit-weighted points over the enumerated courses, then
`gpa = total_points / total_credits if total_credits > 0 else 0.0`. -/
def finalize (cs : List Course) : Option Report :=
  (buildLines 1 cs).map fun lines =>
    let tc : ℚ := (lines.map ReportLine.credit).sum
    let tp : ℚ := (lines.map fun l => l.credit * l.point).sum
    ⟨lines, tc, tp, if 0 < tc then tp / tc else 0⟩

/-- The slot-resetting events returned by `ActionCalculateGpa.run`
(lines 156-162 and 189-195): both exits reset the same five slots. -/
def resetEvents (st : GpaSlots) : GpaSlots :=
  { st with number_of_courses := none,
            current_course_index := some 1,
            current_credit := none,
            current_score := none,
            courses := some [] }

/-- Outcome of one run of `ActionCalculateGpa`: the report uttered to the
user (`none` when only the restart message is uttered) and the slot store
after the returned `SlotSet` events are applied. -/
structure RunOutcome where
  report : Option Report
  slots : GpaSlots
deriving Repr, DecidableEq

/-- Embedding of `ActionCalculateGpa.run` (lines 148-195).  An empty
course list short-circuits to a restart message plus reset (no report);
otherwise the report is computed and the slots reset.  The outer `none`
models the crash when `score_to_grade` returns `None` inside the loop. -/
def action_calculate_gpa (st : GpaSlots) : Option RunOutcome :=
  let cs : List Course := st.courses.getD []
  if cs.isEmpty then some ⟨none, resetEvents st⟩
  else
    match finalize cs with
    | none => none
    | some r => some ⟨some r, resetEvents st⟩

/-- The course index used by `ActionAskCurrentCredit` and
`ActionAskCurrentScore` to render the next prompt (lines 133, 143):
`int(float(tracker.get_slot("current_course_index") or 1))`. -/
def ask_index (st : GpaSlots) : ℤ :=
  st.current_course_index.getD 1

/-- Rounding to two decimals, modelling the `:.2f` formatting of the GPA
in the final message (line 184). -/
def round2 (q : ℚ) : ℚ :=
  (round (q * 100) : ℚ) / 100

/-- A fresh session: every slot unset. -/
def st0 : GpaSlots :=
  ⟨none, none, none, none, none⟩

/-- Eliminating one branch of an if-else chain that produced `some g`. -/
theorem ite_some_elim {p : Prop} [Decidable p] {v : GradeMap} {rest : Option GradeMap}
    {g : GradeMap} (h : (if p then some v else rest) = some g) :
    g = v ∨ rest = some g := by
  split at h
  · exact Or.inl (Option.some.inj h).symm
  · exact Or.inr h

theorem grade_bounds (s : ℚ) (g : GradeMap) (h : score_to_grade s = some g) :
    0 ≤ g.gpa ∧ g.gpa ≤ 4 := by
  unfold score_to_grade at h
  rcases ite_some_elim h with rfl | h
  · exact ⟨by norm_num, by norm_num⟩
  rcases ite_some_elim h with rfl | h
  · exact ⟨by norm_num, by norm_num⟩
  rcases ite_some_elim h with rfl | h
  · exact ⟨by norm_num, by norm_num⟩
  rcases ite_some_elim h with rfl | h
  · exact ⟨by norm_num, by norm_num⟩
  rcases ite_some_elim h with rfl | h
  · exact ⟨by norm_num, by norm_num⟩
  rcases ite_some_elim h with rfl | h
  · exact ⟨by norm_num, by norm_num⟩
  rcases ite_some_elim h with rfl | h
  · exact ⟨by norm_num, by norm_num⟩
  rcases ite_some_elim h with rfl | h
  · exact ⟨by norm_num, by norm_num⟩
  rcases ite_some_elim h with rfl | h
  · exact ⟨by norm_num, by norm_num⟩
  rcases ite_some_elim h with rfl | h
  · exact ⟨by norm_num, by norm_num⟩
  rcases ite_some_elim h with rfl | h
  · exact ⟨by norm_num, by norm_num⟩
  exact Option.noConfusion h

theorem buildLines_spec (cs : List Course) : ∀ (i : ℕ) (ls : List ReportLine),
    buildLines i cs = some ls →
    ls.length = cs.length ∧
    ls.map ReportLine.credit = cs.map Course.credit ∧
    (ls.map fun l => l.credit * l.point) =
      (cs.map fun c => c.credit * (((score_to_grade c.score).map GradeMap.gpa).getD 0)) ∧
    (∀ k (h : k < ls.length), (ls.get ⟨k, h⟩).index = i + k ∧
      ∃ h2 : k < cs.length, (ls.get ⟨k, h⟩).credit = (cs.get ⟨k, h2⟩).credit ∧
        (ls.get ⟨k, h⟩).score = (cs.get ⟨k, h2⟩).score) := by
  induction cs with
  | nil =>
    intro i ls h
    simp [buildLines] at h
    subst h
    simp
  | cons c rest ih =>
    intro i ls h
    unfold buildLines at h
    cases hg : score_to_grade c.score with
    | none => rw [hg] at h; exact Option.noConfusion h
    | some g =>
      rw [hg] at h
      cases hb : buildLines (i+1) rest with
      | none => rw [hb] at h; exact Option.noConfusion h
      | some ls2 =>
        rw [hb] at h
        replace h := Option.some.inj h
        obtain ⟨h1, h2, h3, h4⟩ := ih (i+1) ls2 hb
        subst h
        refine ⟨by simp [h1], by simp [h2], by simp [h3, hg], ?_⟩
        intro k hk
        cases k with
        | zero => simp
        | succ k2 =>
          simp only [List.length_cons, Nat.succ_lt_succ_iff] at hk
          obtain ⟨hidx, hk2, hcred, hsc⟩ := h4 k2 hk
          refine ⟨?_, ?_⟩
          · simp only [List.get_cons_succ]
            rw [hidx]; omega
          · refine ⟨by simpa using Nat.succ_lt_succ hk2, ?_, ?_⟩
            · simpa only [List.get_cons_succ] using hcred
            · simpa only [List.get_cons_succ] using hsc

theorem buildLines_totals_bound (cs : List Course) : ∀ (i : ℕ) (ls : List ReportLine),
    buildLines i cs = some ls → (∀ c ∈ cs, 0 ≤ c.credit) →
    0 ≤ (ls.map ReportLine.credit).sum ∧
    0 ≤ (ls.map fun l => l.credit * l.point).sum ∧
    (ls.map fun l => l.credit * l.point).sum ≤ 4 * (ls.map ReportLine.credit).sum := by
  induction cs with
  | nil =>
    intro i ls h _
    simp [buildLines] at h
    subst h
    simp
  | cons c rest ih =>
    intro i ls h hcred
    unfold buildLines at h
    cases hg : score_to_grade c.score with
    | none => rw [hg] at h; exact Option.noConfusion h
    | some g =>
      rw [hg] at h
      cases hb : buildLines (i+1) rest with
      | none => rw [hb] at h; exact Option.noConfusion h
      | some ls2 =>
        rw [hb] at h
        replace h := Option.some.inj h
        subst h
        obtain ⟨hc1, hc2, hc3⟩ := ih (i+1) ls2 hb (fun d hd => hcred d (List.mem_cons_of_mem c hd))
        have hc0 : (0:ℚ) ≤ c.credit := hcred c (List.mem_cons_self c rest)
        obtain ⟨hg0, hg4⟩ := grade_bounds c.score g hg
        simp only [List.map_cons, List.sum_cons]
        refine ⟨by positivity, ?_, ?_⟩
        · have : (0:ℚ) ≤ c.credit * g.gpa := mul_nonneg hc0 hg0
          linarith
        · have : c.credit * g.gpa ≤ c.credit * 4 := mul_le_mul_of_nonneg_left hg4 hc0
          linarith

theorem buildLines_append (c : Course) (cs : List Course) : ∀ i : ℕ,
    buildLines i (cs ++ [c]) = (buildLines i cs).bind fun ls =>
      (score_to_grade c.score).map fun g =>
        ls ++ [⟨i + cs.length, c.credit, c.score, g.letter, g.gpa⟩] := by
  induction cs with
  | nil =>
    intro i
    cases hg : score_to_grade c.score with
    | none => simp [buildLines, hg]
    | some g => simp [buildLines, hg]
  | cons d rest ih =>
    intro i
    show buildLines i (d :: (rest ++ [c])) = _
    unfold buildLines
    cases hd : score_to_grade d.score with
    | none => simp
    | some gd =>
      rw [ih (i+1)]
      cases hb : buildLines (i+1) rest with
      | none => simp
      | some ls =>
        cases hg : score_to_grade c.score with
        | none => simp [hg]
        | some g =>
          simp [hg, Nat.add_assoc, Nat.add_comm, Nat.add_left_comm]

/-- C1: the claim says every real score in [0,100] falls in exactly one tier
of `score_to_grade`, so the no-tier fall-through is unreachable.  The code
violates this: 94.5 is accepted by `validate_current_score` (it lies in
[0,100]), yet `score_to_grade` returns `none` for it — the tier table has
gaps between the integer breakpoints — and `ActionCalculateGpa.run` then
crashes on `g.gpa`, contradicting the `-> GradeMap` annotation of
`score_to_grade` itself. -/
theorem c1_score_gap_crash :
    (0:ℚ) ≤ 189/2 ∧ (189/2:ℚ) ≤ 100 ∧
    score_to_grade (189/2) = none ∧
    (validate_current_score (some (189/2)) ⟨some 1, some 1, some 3, none, some []⟩).courses
      = some [⟨3, 189/2⟩] ∧
    action_calculate_gpa
      (validate_current_score (some (189/2)) ⟨some 1, some 1, some 3, none, some []⟩) = none := by
  have e : validate_current_score (some (189/2)) ⟨some 1, some 1, some 3, none, some []⟩ =
      ⟨some 1, some 1, some 3, some (189/2), some [⟨3, 189/2⟩]⟩ := by
    norm_num [validate_current_score]
  refine ⟨by norm_num, by norm_num, ?_, ?_, ?_⟩
  · norm_num [score_to_grade]
  · rw [e]
  · rw [e]
    norm_num [action_calculate_gpa, finalize, buildLines, score_to_grade]

/-- C2 counterexample: the claim says a redelivered `supplyScore` for an
index that already has an entry is a no-op.  In the code there is no such
guard: from the state after the score of the single expected course was
accepted (entry for index 1 present), redelivering the same score appends a
second copy of the entry and doubles `totalCredits` (3 becomes 6). -/
theorem c2_duplicate_appended :
    validate_current_score (some 95) ⟨some 1, some 1, some 3, some 95, some [⟨3,95⟩]⟩ ≠
      ⟨some 1, some 1, some 3, some 95, some [⟨3,95⟩]⟩ ∧
    (validate_current_score (some 95) ⟨some 1, some 1, some 3, some 95, some [⟨3,95⟩]⟩).courses =
      some [⟨3,95⟩, ⟨3,95⟩] ∧
    (finalize [⟨3,95⟩]).map Report.totalCredits = some 3 ∧
    (finalize [⟨3,95⟩, ⟨3,95⟩]).map Report.totalCredits = some 6 := by
  have e : validate_current_score (some 95) ⟨some 1, some 1, some 3, some 95, some [⟨3,95⟩]⟩ =
      ⟨some 1, some 1, some 3, some 95, some [⟨3,95⟩, ⟨3,95⟩]⟩ := by
    norm_num [validate_current_score]
  refine ⟨by rw [e]; simp, by rw [e], ?_, ?_⟩
  · norm_num [finalize, buildLines, score_to_grade]
  · norm_num [finalize, buildLines, score_to_grade]

/-- C2 amended: `validate_current_score` has no idempotency guard — every
accepted score (in [0,100]) unconditionally appends one more entry to the
collected course list, so a duplicate redelivery duplicates the entry. -/
theorem c2_always_appends (s : ℚ) (st : GpaSlots) (h0 : 0 ≤ s) (h100 : s ≤ 100) :
    ((validate_current_score (some s) st).courses.getD []).length
      = (st.courses.getD []).length + 1 := by
  simp only [validate_current_score]
  rw [if_neg (not_not_intro ⟨h0, h100⟩)]
  split <;> simp

/-- C2 witness: redelivering score 95 to the duplicate-prone state grows the
entry list from one entry to two. -/
theorem c2_always_appends_witness :
    ((validate_current_score (some 95)
        ⟨some 1, some 1, some 3, some 95, some [⟨3,95⟩]⟩).courses.getD []).length
      = (((⟨some 1, some 1, some 3, some 95, some [⟨3,95⟩]⟩ : GpaSlots)).courses.getD []).length
          + 1 :=
  c2_always_appends 95 ⟨some 1, some 1, some 3, some 95, some [⟨3,95⟩]⟩
    (by norm_num) (by norm_num)

/-- C3: `finalize` totals the credits, totals the credit-weighted grade
points, and divides (with a zero-credit fallback of 0); the concrete session
start(2), supplyCredit(3), supplyScore(95), supplyCredit(4), supplyScore(70)
finalizes to totalCredits 7, totalPoints 94/5 = 18.8 and a GPA that rounds
to two decimals as 2.69. -/
theorem c3_totals_and_scenario :
    (∀ (cs : List Course) (r : Report), finalize cs = some r →
      r.totalCredits = (cs.map Course.credit).sum ∧
      r.totalPoints =
        (cs.map fun c => c.credit * (((score_to_grade c.score).map GradeMap.gpa).getD 0)).sum ∧
      r.gpa = if 0 < r.totalCredits then r.totalPoints / r.totalCredits else 0) ∧
    ((action_calculate_gpa (validate_current_score (some 70) (validate_current_credit (some 4)
        (validate_current_score (some 95) (validate_current_credit (some 3)
        (validate_number_of_courses (some 2) st0)))))).bind RunOutcome.report).map
      (fun r => (r.totalCredits, r.totalPoints, round2 r.gpa)) = some (7, 94/5, 269/100) := by
  constructor
  · intro cs r h
    unfold finalize at h
    cases hb : buildLines 1 cs with
    | none => rw [hb] at h; exact Option.noConfusion h
    | some lines =>
      rw [hb] at h
      replace h := Option.some.inj h
      subst h
      obtain ⟨h1, h2, h3, h4⟩ := buildLines_spec cs 1 lines hb
      exact ⟨by simp [h2], by simp [h3], by simp⟩
  · have e1 : validate_number_of_courses (some 2) st0 = ⟨some 2, some 1, none, none, some []⟩ := by
      norm_num [validate_number_of_courses, truncQ, st0]
    have e2 : validate_current_credit (some 3) ⟨some 2, some 1, none, none, some []⟩ =
        ⟨some 2, some 1, some 3, none, some []⟩ := by
      norm_num [validate_current_credit]
    have e3 : validate_current_score (some 95) ⟨some 2, some 1, some 3, none, some []⟩ =
        ⟨some 2, some 2, none, none, some [⟨3, 95⟩]⟩ := by
      norm_num [validate_current_score]
    have e4 : validate_current_credit (some 4) ⟨some 2, some 2, none, none, some [⟨3, 95⟩]⟩ =
        ⟨some 2, some 2, some 4, none, some [⟨3, 95⟩]⟩ := by
      norm_num [validate_current_credit]
    have e5 : validate_current_score (some 70) ⟨some 2, some 2, some 4, none, some [⟨3, 95⟩]⟩ =
        ⟨some 2, some 2, some 4, some 70, some [⟨3, 95⟩, ⟨4, 70⟩]⟩ := by
      norm_num [validate_current_score]
    rw [e1, e2, e3, e4, e5]
    have e6 : finalize [⟨3, 95⟩, ⟨4, 70⟩] =
        some ⟨[⟨1, 3, 95, "A+", 4⟩, ⟨2, 4, 70, "C", 17/10⟩], 7, 94/5, 94/35⟩ := by
      norm_num [finalize, buildLines, score_to_grade]
    norm_num [action_calculate_gpa, e6]
    rw [round2, round_eq]
    norm_num

/-- C3 witness: the totals characterization applied to the one-course list
with credit 3 and score 95, whose report has totalCredits 3, totalPoints 12
and gpa 4. -/
theorem c3_totals_witness :
    (⟨[⟨1, 3, 95, "A+", 4⟩], 3, 12, 4⟩ : Report).totalCredits
        = (([⟨3, 95⟩] : List Course).map Course.credit).sum ∧
    (⟨[⟨1, 3, 95, "A+", 4⟩], 3, 12, 4⟩ : Report).totalPoints
        = (([⟨3, 95⟩] : List Course).map
            fun c => c.credit * (((score_to_grade c.score).map GradeMap.gpa).getD 0)).sum ∧
    (⟨[⟨1, 3, 95, "A+", 4⟩], 3, 12, 4⟩ : Report).gpa =
      if 0 < (⟨[⟨1, 3, 95, "A+", 4⟩], 3, 12, 4⟩ : Report).totalCredits then
        (⟨[⟨1, 3, 95, "A+", 4⟩], 3, 12, 4⟩ : Report).totalPoints
          / (⟨[⟨1, 3, 95, "A+", 4⟩], 3, 12, 4⟩ : Report).totalCredits
      else 0 :=
  c3_totals_and_scenario.1 [⟨3, 95⟩] ⟨[⟨1, 3, 95, "A+", 4⟩], 3, 12, 4⟩
    (by norm_num [finalize, buildLines, score_to_grade])

/-- C4 counterexample: the claim says every non-integer-valued input is
rejected with `InvalidCount`.  The code instead truncates: the non-integer
input 3.7 is accepted and stored as expected count 3. -/
theorem c4_noninteger_accepted :
    (∀ k : ℤ, (37/10 : ℚ) ≠ (k : ℚ)) ∧
    validate_number_of_courses (some (37/10)) st0 =
      { st0 with number_of_courses := some 3, current_course_index := some 1,
                 courses := some [] } := by
  constructor
  · intro k hk
    have h3 : (3:ℚ) < (k:ℚ) := by rw [← hk]; norm_num
    have h4 : (k:ℚ) < 4 := by rw [← hk]; norm_num
    have h3i : (3:ℤ) < k := by exact_mod_cast h3
    have h4i : k < (4:ℤ) := by exact_mod_cast h4
    omega
  · norm_num [validate_number_of_courses, truncQ, st0]

/-- C4 amended: `validate_number_of_courses` accepts exactly the parseable
inputs whose truncation toward zero lies in [1,50], storing the truncated
value and initializing index 1 and empty entries; it rejects (clearing only
`number_of_courses`) out-of-range truncations — in particular 0, -1 and 51 —
and unparseable input. -/
theorem c4_count_validation :
    (∀ (q : ℚ) (st : GpaSlots), 1 ≤ truncQ q → truncQ q ≤ 50 →
      validate_number_of_courses (some q) st =
        { st with number_of_courses := some (truncQ q), current_course_index := some 1,
                  courses := some [] }) ∧
    (∀ (q : ℚ) (st : GpaSlots), ¬(1 ≤ truncQ q ∧ truncQ q ≤ 50) →
      validate_number_of_courses (some q) st = { st with number_of_courses := none }) ∧
    (∀ st : GpaSlots, validate_number_of_courses none st = { st with number_of_courses := none }) ∧
    validate_number_of_courses (some 0) st0 = { st0 with number_of_courses := none } ∧
    validate_number_of_courses (some (-1)) st0 = { st0 with number_of_courses := none } ∧
    validate_number_of_courses (some 51) st0 = { st0 with number_of_courses := none } := by
  refine ⟨?_, ?_, ?_, ?_, ?_, ?_⟩
  · intro q st h1 h2
    simp only [validate_number_of_courses]
    rw [if_neg (not_not_intro ⟨h1, h2⟩)]
  · intro q st h
    simp only [validate_number_of_courses]
    rw [if_pos h]
  · intro st; rfl
  · norm_num [validate_number_of_courses, truncQ, st0]
  · norm_num [validate_number_of_courses, truncQ, st0]
  · norm_num [validate_number_of_courses, truncQ, st0]

/-- C4 witness: the in-range input 2 is accepted and stored. -/
theorem c4_count_validation_witness :
    validate_number_of_courses (some 2) st0 =
      { st0 with number_of_courses := some (truncQ 2), current_course_index := some 1,
                 courses := some [] } :=
  c4_count_validation.1 2 st0 (by norm_num [truncQ]) (by norm_num [truncQ])

/-- C5: `validate_current_credit` accepts exactly 0 < c ≤ 30 (storing the
pending credit) and otherwise rejects; `validate_current_score` accepts
exactly 0 ≤ s ≤ 100 — every in-range score is processed, appending the
entry built from the pending credit — and otherwise rejects; every
rejection leaves the
expected count, current index, pending credit (already empty while a credit
is awaited) and entries unchanged, so the next prompt re-asks the same
index; 35, -5 and 101 are concrete rejected inputs. -/
theorem c5_validation :
    (∀ (c : ℚ) (st : GpaSlots), 0 < c → c ≤ 30 →
      validate_current_credit (some c) st = { st with current_credit := some c }) ∧
    (∀ (s : ℚ) (st : GpaSlots), 0 ≤ s → s ≤ 100 →
      (validate_current_score (some s) st).courses
        = some (st.courses.getD [] ++ [⟨st.current_credit.getD 0, s⟩])) ∧
    (∀ (c : ℚ) (st : GpaSlots), ¬(0 < c ∧ c ≤ 30) → st.current_credit = none →
      validate_current_credit (some c) st = st) ∧
    (∀ (s : ℚ) (st : GpaSlots), ¬(0 ≤ s ∧ s ≤ 100) →
      validate_current_score (some s) st = { st with current_score := none }) ∧
    (∀ (s : ℚ) (st : GpaSlots), ¬(0 ≤ s ∧ s ≤ 100) →
      (validate_current_score (some s) st).number_of_courses = st.number_of_courses ∧
      (validate_current_score (some s) st).current_course_index = st.current_course_index ∧
      (validate_current_score (some s) st).current_credit = st.current_credit ∧
      (validate_current_score (some s) st).courses = st.courses ∧
      ask_index (validate_current_score (some s) st) = ask_index st) ∧
    (∀ (c : ℚ) (st : GpaSlots), ¬(0 < c ∧ c ≤ 30) →
      ask_index (validate_current_credit (some c) st) = ask_index st) ∧
    ¬(0 < (35:ℚ) ∧ (35:ℚ) ≤ 30) ∧ ¬(0 ≤ (-5:ℚ) ∧ (-5:ℚ) ≤ 100) ∧
    ¬(0 ≤ (101:ℚ) ∧ (101:ℚ) ≤ 100) := by
  refine ⟨?_, ?_, ?_, ?_, ?_, ?_, by norm_num, by norm_num, by norm_num⟩
  · intro c st h1 h2
    simp only [validate_current_credit]
    rw [if_neg (not_not_intro ⟨h1, h2⟩)]
  · intro s st h0 h100
    simp only [validate_current_score]
    rw [if_neg (not_not_intro ⟨h0, h100⟩)]
    split <;> rfl
  · intro c st h hcc
    simp only [validate_current_credit]
    rw [if_pos h]
    cases st
    simp_all
  · intro s st h
    simp only [validate_current_score]
    rw [if_pos h]
  · intro s st h
    simp only [validate_current_score]
    rw [if_pos h]
    exact ⟨rfl, rfl, rfl, rfl, rfl⟩
  · intro c st h
    simp only [validate_current_credit]
    rw [if_pos h]
    rfl

/-- C5 witness: credit 3 is accepted; the in-range score 95 is accepted,
appending the entry with the pending credit 3; credit 35 is rejected
leaving the fresh state unchanged; scores -5 and 101 are rejected; the
rejected credit 35 re-prompts the same index. -/
theorem c5_validation_witness :
    validate_current_credit (some 3) st0 = { st0 with current_credit := some 3 } ∧
    (validate_current_score (some 95) ⟨some 2, some 1, some 3, none, some []⟩).courses
      = some ((⟨some 2, some 1, some 3, none, some []⟩ : GpaSlots).courses.getD []
          ++ [⟨(⟨some 2, some 1, some 3, none, some []⟩ : GpaSlots).current_credit.getD 0, 95⟩]) ∧
    validate_current_credit (some 35) st0 = st0 ∧
    validate_current_score (some (-5)) st0 = { st0 with current_score := none } ∧
    validate_current_score (some 101) st0 = { st0 with current_score := none } ∧
    ask_index (validate_current_credit (some 35) st0) = ask_index st0 :=
  ⟨c5_validation.1 3 st0 (by norm_num) (by norm_num),
   c5_validation.2.1 95 ⟨some 2, some 1, some 3, none, some []⟩ (by norm_num) (by norm_num),
   c5_validation.2.2.1 35 st0 (by norm_num) rfl,
   c5_validation.2.2.2.1 (-5) st0 (by norm_num),
   c5_validation.2.2.2.1 101 st0 (by norm_num),
   c5_validation.2.2.2.2.2.1 35 st0 (by norm_num)⟩

/-- C6 counterexample: the claim says every successful `supplyScore` clears
the pending credit, including for the final course.  In the code the
final-course branch (line 125) returns only `courses` and `current_score`:
after the score of the last expected course is accepted, the entry exists
but `current_credit` is still 3, not cleared. -/
theorem c6_final_credit_not_cleared :
    (validate_current_score (some 95) ⟨some 1, some 1, some 3, none, some []⟩).courses
      = some [⟨3, 95⟩] ∧
    (validate_current_score (some 95) ⟨some 1, some 1, some 3, none, some []⟩).current_credit
      = some 3 := by
  have e : validate_current_score (some 95) ⟨some 1, some 1, some 3, none, some []⟩ =
      ⟨some 1, some 1, some 3, some 95, some [⟨3, 95⟩]⟩ := by
    norm_num [validate_current_score]
  rw [e]
  exact ⟨rfl, rfl⟩

/-- C6 amended: an accepted score clears the pending credit exactly when a
further course is still expected (non-final branch); on the final course the
pending credit is left in place and is cleared only by the slot reset of
`ActionCalculateGpa`. -/
theorem c6_pending_credit_clearing :
    (∀ (s : ℚ) (st : GpaSlots), 0 ≤ s → s ≤ 100 →
      st.current_course_index.getD 1 + 1 ≤ st.number_of_courses.getD 0 →
      (validate_current_score (some s) st).current_credit = none) ∧
    (∀ (s : ℚ) (st : GpaSlots), 0 ≤ s → s ≤ 100 →
      ¬(st.current_course_index.getD 1 + 1 ≤ st.number_of_courses.getD 0) →
      (validate_current_score (some s) st).current_credit = st.current_credit) ∧
    (∀ (st : GpaSlots) (o : RunOutcome), action_calculate_gpa st = some o →
      o.slots.current_credit = none) := by
  refine ⟨?_, ?_, ?_⟩
  · intro s st h0 h100 hnext
    simp only [validate_current_score]
    rw [if_neg (not_not_intro ⟨h0, h100⟩), if_pos hnext]
  · intro s st h0 h100 hnext
    simp only [validate_current_score]
    rw [if_neg (not_not_intro ⟨h0, h100⟩), if_neg hnext]
  · intro st o h
    simp only [action_calculate_gpa] at h
    split at h
    · replace h := Option.some.inj h
      subst h
      rfl
    · split at h
      · exact Option.noConfusion h
      · replace h := Option.some.inj h
        subst h
        rfl

/-- C6 witness: accepting score 95 for course 1 of 2 (a non-final course)
clears the pending credit. -/
theorem c6_pending_credit_clearing_witness :
    (validate_current_score (some 95) ⟨some 2, some 1, some 3, none, some []⟩).current_credit
      = none :=
  c6_pending_credit_clearing.1 95 ⟨some 2, some 1, some 3, none, some []⟩
    (by norm_num) (by norm_num) (by simp)

/-- C7: a finalized report over n collected entries has exactly n lines,
numbered 1..n with no gaps, and the k-th line carries the credit and score
of the k-th collected entry — collection order is preserved. -/
theorem c7_report_lines_ordered (n : ℕ) (cs : List Course) (r : Report)
    (hn : cs.length = n) (h : finalize cs = some r) :
    r.lines.length = n ∧
    (∀ k (hk : k < r.lines.length),
      (r.lines.get ⟨k, hk⟩).index = k + 1 ∧
      ∃ hk2 : k < cs.length,
        (r.lines.get ⟨k, hk⟩).credit = (cs.get ⟨k, hk2⟩).credit ∧
        (r.lines.get ⟨k, hk⟩).score = (cs.get ⟨k, hk2⟩).score) := by
  unfold finalize at h
  cases hb : buildLines 1 cs with
  | none => rw [hb] at h; exact Option.noConfusion h
  | some lines =>
    rw [hb] at h
    replace h := Option.some.inj h
    subst h
    obtain ⟨h1, _, _, h4⟩ := buildLines_spec cs 1 lines hb
    refine ⟨by simpa [hn] using h1, ?_⟩
    intro k hk
    obtain ⟨hidx, hk2, hcred, hsc⟩ := h4 k hk
    exact ⟨by rw [hidx]; omega, hk2, hcred, hsc⟩

/-- C7 witness: the two-course session yields a two-line report with indices
1 and 2 matching the collected credits and scores. -/
theorem c7_report_lines_ordered_witness :
    (⟨[⟨1, 3, 95, "A+", 4⟩, ⟨2, 4, 70, "C", 17/10⟩], 7, 94/5, 94/35⟩ : Report).lines.length = 2 ∧
    (∀ k (hk : k <
        (⟨[⟨1, 3, 95, "A+", 4⟩, ⟨2, 4, 70, "C", 17/10⟩], 7, 94/5, 94/35⟩ : Report).lines.length),
      ((⟨[⟨1, 3, 95, "A+", 4⟩, ⟨2, 4, 70, "C", 17/10⟩], 7, 94/5, 94/35⟩ : Report).lines.get
          ⟨k, hk⟩).index = k + 1 ∧
      ∃ hk2 : k < ([⟨3, 95⟩, ⟨4, 70⟩] : List Course).length,
        ((⟨[⟨1, 3, 95, "A+", 4⟩, ⟨2, 4, 70, "C", 17/10⟩], 7, 94/5, 94/35⟩ : Report).lines.get
            ⟨k, hk⟩).credit = (([⟨3, 95⟩, ⟨4, 70⟩] : List Course).get ⟨k, hk2⟩).credit ∧
        ((⟨[⟨1, 3, 95, "A+", 4⟩, ⟨2, 4, 70, "C", 17/10⟩], 7, 94/5, 94/35⟩ : Report).lines.get
            ⟨k, hk⟩).score = (([⟨3, 95⟩, ⟨4, 70⟩] : List Course).get ⟨k, hk2⟩).score) :=
  c7_report_lines_ordered 2 [⟨3, 95⟩, ⟨4, 70⟩]
    ⟨[⟨1, 3, 95, "A+", 4⟩, ⟨2, 4, 70, "C", 17/10⟩], 7, 94/5, 94/35⟩
    (by norm_num) (by norm_num [finalize, buildLines, score_to_grade])

/-- C8 counterexample: the claim promises 0 ≤ gpa ≤ 4 for every entry list
built from accepted inputs (credit in (0,30], score in [0,100]).  The entry
with credit 1 and score 89.5 is built from accepted inputs, yet `finalize`
produces no report at all for it (`score_to_grade` falls in the 89-90 gap
and the aggregation crashes), so no bounded gpa exists. -/
theorem c8_gap_score_no_report :
    (0:ℚ) < 1 ∧ (1:ℚ) ≤ 30 ∧ (0:ℚ) ≤ 179/2 ∧ (179/2:ℚ) ≤ 100 ∧
    finalize [⟨1, 179/2⟩] = none := by
  norm_num [finalize, buildLines, score_to_grade]

/-- C8 amended: whenever `finalize` does produce a report for entries with
positive credits at most 30 (every score fell in some tier), the gpa lies in
[0,4], and it is 0 whenever totalCredits is 0. -/
theorem c8_gpa_bounds (cs : List Course) (r : Report)
    (hc : ∀ c ∈ cs, 0 < c.credit ∧ c.credit ≤ 30)
    (h : finalize cs = some r) :
    0 ≤ r.gpa ∧ r.gpa ≤ 4 ∧ (r.totalCredits = 0 → r.gpa = 0) := by
  unfold finalize at h
  cases hb : buildLines 1 cs with
  | none => rw [hb] at h; exact Option.noConfusion h
  | some lines =>
    rw [hb] at h
    replace h := Option.some.inj h
    subst h
    obtain ⟨ht1, ht2, ht3⟩ :=
      buildLines_totals_bound cs 1 lines hb (fun c hcm => le_of_lt (hc c hcm).1)
    by_cases hpos : 0 < (lines.map ReportLine.credit).sum
    · refine ⟨?_, ?_, ?_⟩
      · simp only [if_pos hpos]
        exact div_nonneg ht2 (le_of_lt hpos)
      · simp only [if_pos hpos]
        rw [div_le_iff₀ hpos]
        linarith
      · intro h0
        simp only at h0
        rw [h0] at hpos
        norm_num at hpos
    · refine ⟨?_, ?_, ?_⟩ <;> simp [if_neg hpos]

/-- C8 witness: the single-course report with credit 3 and score 95 has
gpa 4, within the bounds. -/
theorem c8_gpa_bounds_witness :
    0 ≤ (⟨[⟨1, 3, 95, "A+", 4⟩], 3, 12, 4⟩ : Report).gpa ∧
    (⟨[⟨1, 3, 95, "A+", 4⟩], 3, 12, 4⟩ : Report).gpa ≤ 4 ∧
    ((⟨[⟨1, 3, 95, "A+", 4⟩], 3, 12, 4⟩ : Report).totalCredits = 0 →
      (⟨[⟨1, 3, 95, "A+", 4⟩], 3, 12, 4⟩ : Report).gpa = 0) :=
  c8_gpa_bounds [⟨3, 95⟩] ⟨[⟨1, 3, 95, "A+", 4⟩], 3, 12, 4⟩
    (by norm_num) (by norm_num [finalize, buildLines, score_to_grade])

/-- C9 counterexample: the claim says an empty entry list finalizes to a
zero-credit, zero-GPA report with no lines.  The code instead short-circuits
before any aggregation: on an empty course list `ActionCalculateGpa.run`
utters a restart message and resets the slots, producing no report at
all. -/
theorem c9_empty_no_report :
    action_calculate_gpa ⟨some 1, some 1, none, none, some []⟩ =
      some ⟨none, ⟨none, some 1, none, none, some []⟩⟩ ∧
    ((action_calculate_gpa ⟨some 1, some 1, none, none, some []⟩).bind RunOutcome.report)
      = none := by
  constructor <;> rfl

/-- C9 amended: on an empty collected course list the action is a defined,
non-crashing no-report path: it emits the restart message and resets all
five session slots. -/
theorem c9_empty_defined_reset (st : GpaSlots) (h : st.courses.getD [] = []) :
    action_calculate_gpa st = some ⟨none, resetEvents st⟩ := by
  simp only [action_calculate_gpa]
  rw [h]
  rfl

/-- C9 witness: a mid-session state whose course list is empty takes the
reset path. -/
theorem c9_empty_defined_reset_witness :
    action_calculate_gpa ⟨some 2, some 1, none, none, some []⟩ =
      some ⟨none, resetEvents ⟨some 2, some 1, none, none, some []⟩⟩ :=
  c9_empty_defined_reset ⟨some 2, some 1, none, none, some []⟩ rfl

/-- C10: an accepted score arriving while no pending credit is stored does
not fail — the entry is recorded with credit defaulted to 0, and such a
zero-credit entry changes neither totalCredits, nor totalPoints, nor the
gpa of any report that finalizes. -/
theorem c10_missing_credit_defaults_zero :
    (∀ (s : ℚ) (st : GpaSlots), 0 ≤ s → s ≤ 100 → st.current_credit = none →
      (validate_current_score (some s) st).courses = some (st.courses.getD [] ++ [⟨0, s⟩])) ∧
    (∀ (s : ℚ) (cs : List Course) (r2 : Report),
      finalize (cs ++ [⟨0, s⟩]) = some r2 →
      ∃ r : Report, finalize cs = some r ∧
        r2.totalCredits = r.totalCredits ∧ r2.totalPoints = r.totalPoints ∧
        r2.gpa = r.gpa) := by
  constructor
  · intro s st h0 h100 hcc
    simp only [validate_current_score]
    rw [if_neg (not_not_intro ⟨h0, h100⟩)]
    rw [hcc]
    split <;> rfl
  · intro s cs r2 h
    unfold finalize at h
    rw [buildLines_append] at h
    cases hb : buildLines 1 cs with
    | none => rw [hb] at h; exact Option.noConfusion h
    | some ls =>
      rw [hb] at h
      cases hg : score_to_grade s with
      | none => simp [hg] at h
      | some g =>
        simp only [hg, Option.some_bind, Option.map_some] at h
        replace h := Option.some.inj h
        subst h
        refine ⟨_, by rw [finalize, hb]; rfl, ?_, ?_, ?_⟩ <;>
          simp [List.map_append, List.sum_append]

/-- C10 witness: with no pending credit, score 95 is recorded as a
zero-credit entry, and appending a zero-credit entry to a one-course list
leaves all report totals unchanged. -/
theorem c10_missing_credit_defaults_zero_witness :
    (validate_current_score (some 95) ⟨some 1, some 1, none, none, some []⟩).courses
      = some ((⟨some 1, some 1, none, none, some []⟩ : GpaSlots).courses.getD []
          ++ [⟨0, 95⟩]) ∧
    ∃ r : Report, finalize [⟨3, 95⟩] = some r ∧
      (⟨[⟨1, 3, 95, "A+", 4⟩, ⟨2, 0, 95, "A+", 4⟩], 3, 12, 4⟩ : Report).totalCredits
        = r.totalCredits ∧
      (⟨[⟨1, 3, 95, "A+", 4⟩, ⟨2, 0, 95, "A+", 4⟩], 3, 12, 4⟩ : Report).totalPoints
        = r.totalPoints ∧
      (⟨[⟨1, 3, 95, "A+", 4⟩, ⟨2, 0, 95, "A+", 4⟩], 3, 12, 4⟩ : Report).gpa = r.gpa :=
  ⟨c10_missing_credit_defaults_zero.1 95 ⟨some 1, some 1, none, none, some []⟩
      (by norm_num) (by norm_num) rfl,
   c10_missing_credit_defaults_zero.2 95 [⟨3, 95⟩]
      ⟨[⟨1, 3, 95, "A+", 4⟩, ⟨2, 0, 95, "A+", 4⟩], 3, 12, 4⟩
      (by norm_num [finalize, buildLines, score_to_grade])⟩

end RasaGpa
